import Mathlib

/-!
Verification of the device-pool core of the birthday-image Telegram bot
(`src/image/generator.py`, `src/speech/speech_to_text.py`, `src/bot/handlers.py`).

The three pools (`GPUPool`, `TranslatorPool`, `WhisperPool`) share one
structure: a fixed device list, a dict of loaded model artifacts, an
`asyncio.Queue` of available device ids (FIFO), and an `_initialized` flag.
We embed that shared structure once.  Model artifacts are abstracted as `Nat`
(only their presence/identity matters to the pool logic); a model-load
attempt is a function `String → Option Nat`, where `none` covers both a
load that returns no artifact and a load that raises (both are caught and
logged by the source and treated identically).
-/

/-- Pool state, embedding the fields of `GPUPool.__init__`
(`generator.py` lines 165-178): `gpu_devices`, `pipelines` (an assoc list
standing for the Python dict, first binding wins on lookup), `available_gpus`
(FIFO list, head = front of the queue), the size of `generation_queue`
(an `asyncio.Queue` whose contents are only ever read via `qsize()`), and the
`_initialized` flag (field `initDone` here). -/
structure Pool where
  gpu_devices : List String
  pipelines : List (String × Nat)
  available : List String
  genQueueSize : Nat
  initDone : Bool
deriving Repr, DecidableEq

/-- Fresh pool as built by `GPUPool.__init__`: no pipelines, empty available
queue, empty generation queue, not initialized. -/
def mkPool (gpu_devices : List String) : Pool :=
  { gpu_devices := gpu_devices
    pipelines := []
    available := []
    genQueueSize := 0
    initDone := false }

/-- One-time model loading, embedding `GPUPool.initialize` (`generator.py`
lines 180-200; `WhisperPool.initialize` and `TranslatorPool.initialize` are
line-for-line the same shape): if already initialized, return unchanged;
otherwise, for each configured device in order, attempt the load; on success
record the artifact and put the device id at the back of the available FIFO;
on failure (no artifact or exception, both caught per device) skip the device
and continue; finally set the initialized flag regardless of how many
devices succeeded. -/
def initModels (load : String → Option Nat) (p : Pool) : Pool :=
  if p.initDone then p
  else
    let s := p.gpu_devices.foldl
      (fun st d =>
        match load d with
        | some art =>
            { st with
              pipelines := st.pipelines ++ [(d, art)]
              available := st.available ++ [d] }
        | none => st)
      p
    { s with initDone := true }

/-- Result of one attempt to take a device from the available FIFO, embedding
the body of `GPUPool.acquire_gpu` (`generator.py` lines 306-322): `blocked`
models the caller suspending in `await self.available_gpus.get()` on an empty
queue; `failed` models the take-then-`RuntimeError` path when the pipeline
dict has no entry for the id (the id is first put back at the rear of the
queue); `acquired` yields the id and its artifact with the id removed from
the queue. -/
inductive AcquireResult where
  | blocked : AcquireResult
  | failed : Pool → AcquireResult
  | acquired : String → Nat → Pool → AcquireResult
deriving Repr, DecidableEq

/-- FIFO acquisition step of `GPUPool.acquire_gpu` (after the init check). -/
def acquireGpu (p : Pool) : AcquireResult :=
  match p.available with
  | [] => .blocked
  | d :: rest =>
    match p.pipelines.lookup d with
    | none => .failed { p with available := rest ++ [d] }
    | some art => .acquired d art { p with available := rest }

/-- Best-effort memory reclamation, embedding `_cleanup_device_memory`
(`generator.py` lines 329-344): the entire body is wrapped in
`try/except`, so whether the vendor cache-clearing call succeeds or raises,
nothing escapes — the function always returns unit. -/
def cleanupDeviceMemory (reclaim : String → Except String Unit) (d : String) : Unit :=
  match reclaim d with
  | .ok _ => ()
  | .error _ => ()

/-- Lease release, embedding the `finally` block of `acquire_gpu`
(`generator.py` lines 323-327): reclaim memory (failures swallowed), then
put the id back at the rear of the available FIFO. -/
def releaseGpu (reclaim : String → Except String Unit) (d : String) (p : Pool) : Pool :=
  let _ := cleanupDeviceMemory reclaim d
  { p with available := p.available ++ [d] }

/-- Outcome of a whole scoped lease (`async with pool.acquire_gpu() as ...`). -/
inductive LeaseOutcome (α : Type) where
  | blocked : LeaseOutcome α
  | err : String → LeaseOutcome α
  | ok : α → LeaseOutcome α
deriving Repr, DecidableEq

/-- The scoped acquire/use/release protocol of `acquire_gpu`
(`generator.py` lines 306-327): take a device; if its pipeline is missing,
re-enqueue it and raise; otherwise run the body (which may return normally
or raise) and, in the `finally` block executed on both exits, reclaim memory
and return the id to the back of the FIFO; a body exception propagates after
the release. -/
def acquireGpuScoped {α : Type} (reclaim : String → Except String Unit)
    (body : String → Nat → Except String α) (p : Pool) :
    LeaseOutcome α × Pool :=
  match acquireGpu p with
  | .blocked => (.blocked, p)
  | .failed p' => (.err "pipeline unavailable", p')
  | .acquired d art p' =>
    let p'' := releaseGpu reclaim d p'
    match body d art with
    | .ok a => (.ok a, p'')
    | .error e => (.err e, p'')

/-- Iterated acquire-then-release cycles on a pool. -/
def cyclesScoped {α : Type} (reclaim : String → Except String Unit)
    (body : String → Nat → Except String α) : Nat → Pool → Pool
  | 0, p => p
  | n + 1, p => cyclesScoped reclaim body n (acquireGpuScoped reclaim body p).2

/-- Status snapshot, embedding `GPUPool.get_status` (`generator.py` lines
346-355): totals come from the fixed device list, `busy` is computed as
total minus available, and `queue_size` reads `generation_queue.qsize()`. -/
structure GpuStatus where
  total_gpus : Nat
  available_gpus : Nat
  busy_gpus : Nat
  queue_size : Nat
  maxQueueSize : Nat
  initDone : Bool
deriving Repr, DecidableEq

/-- The `get_status` read (pure, no side effects). -/
def getStatus (maxq : Nat) (p : Pool) : GpuStatus :=
  { total_gpus := p.gpu_devices.length
    available_gpus := p.available.length
    busy_gpus := p.gpu_devices.length - p.available.length
    queue_size := p.genQueueSize
    maxQueueSize := maxq
    initDone := p.initDone }

/-- Admission check of `handle_generation_request` (`handlers.py` lines
300-307): the request is rejected (user told to retry later, handler
returns without enqueueing) exactly when
`gpu_status["queue_size"] >= config.diffusion.max_queue_size`. -/
def admissionRejects (maxq : Nat) (p : Pool) : Bool :=
  (getStatus maxq p).queue_size ≥ maxq

/-!
System-level model: a pool together with the multiset of currently leased
device ids and a ghost count of requests suspended in
`await self.available_gpus.get()`.  The operations are exactly those the
source performs on a pool: the one-time `initialize`, the acquisition step of
`acquire_gpu` (entering the `async with` body), and the release performed by
its `finally` block.  Nothing in the repository ever puts an item into
`generation_queue`, and these operations reflect that.
-/

/-- A pool plus its outstanding leases and suspended acquirers (ghost). -/
structure SysState where
  pool : Pool
  leased : List String
  waiting : Nat
deriving Repr, DecidableEq

/-- One system operation: initialize the pool, attempt an acquisition
(suspending — counted in `waiting` — when the FIFO is empty), or release a
held lease. -/
inductive SysOp where
  | opInit : SysOp
  | opAcq : SysOp
  | opRel : String → SysOp
deriving Repr, DecidableEq

/-- Apply one operation, with `load` the per-device model loader and
`reclaim` the per-device memory-reclamation call. -/
def applySysOp (load : String → Option Nat) (reclaim : String → Except String Unit)
    (s : SysState) : SysOp → SysState
  | .opInit => { s with pool := initModels load s.pool }
  | .opAcq =>
    match acquireGpu s.pool with
    | .blocked => { s with waiting := s.waiting + 1 }
    | .failed p' => { s with pool := p' }
    | .acquired d _ p' => { s with pool := p', leased := s.leased ++ [d] }
  | .opRel d =>
    if d ∈ s.leased then
      { s with pool := releaseGpu reclaim d s.pool, leased := s.leased.erase d }
    else s

/-- Apply a sequence of operations from left to right. -/
def applySysOps (load : String → Option Nat) (reclaim : String → Except String Unit)
    (ops : List SysOp) (s : SysState) : SysState :=
  ops.foldl (applySysOp load reclaim) s

/-- The ids the pool's `initialize` successfully loads: the configured
devices whose load attempt yields an artifact, in configuration order. -/
def loadedIds (load : String → Option Nat) (devices : List String) : List String :=
  devices.filter (fun d => (load d).isSome)

/-- The models dict built by `initialize`: one binding per successfully
loaded device, in load order. -/
def pipelinesOf (load : String → Option Nat) (devices : List String) :
    List (String × Nat) :=
  devices.filterMap (fun d => (load d).map (fun a => (d, a)))

/-- Conservation invariant after initialization: the available FIFO and the
outstanding leases together hold exactly the successfully loaded ids (as a
multiset), the pool stays marked initialized, and its device list never
changes. -/
def poolInv (load : String → Option Nat) (devices : List String) (s : SysState) : Prop :=
  (s.pool.available ++ s.leased).Perm (loadedIds load devices)
  ∧ s.pool.initDone = true
  ∧ s.pool.gpu_devices = devices

/-!
Cooperative-interleaving model of pool initialization.  In
`WhisperPool.initialize` and `TranslatorPool.initialize` each per-device
model load runs through `await loop.run_in_executor(...)`, a genuine
suspension point of the event loop: between the `if self._initialized:
return` check and the final `self._initialized = True`, other coroutines may
run.  A task below is one caller executing the initialization code
(reached either by calling `initialize()` directly or through the
`if not self._initialized: await self.initialize()` guard of the acquire
path).  One atomic segment runs from one suspension point to the next.
-/

/-- Program counter of one task running `initialize`: `entry` is about to
perform the `_initialized` check; `loading d rest` is suspended in the
executor call loading device `d`, with `rest` still to process; `finished`
has returned. -/
inductive InitPC where
  | entry : InitPC
  | loading : String → List String → InitPC
  | finished : InitPC
deriving Repr, DecidableEq

/-- Shared pool plus the per-task program counters; `loadLog` records, in
order, every completed model load that stored an artifact into the models
dict (so a device appearing twice was loaded twice). -/
structure InitMachine where
  pool : Pool
  loadLog : List String
  tasks : List InitPC
deriving Repr, DecidableEq

/-- One atomic segment of one task (from one suspension point to the next):
at `entry`, perform the initialized check and either return at once, or
(empty device list) set the flag and return, or submit the first device's
load and suspend; at `loading d rest`, the load has completed — store the
artifact and enqueue `d` on success, skip on failure, then either submit the
next device's load and suspend again, or set the initialized flag and
return. -/
def initSegment (load : String → Option Nat) (devices : List String)
    (p : Pool) (log : List String) : InitPC → Pool × List String × InitPC
  | .entry =>
    if p.initDone then (p, log, .finished)
    else
      match devices with
      | [] => ({ p with initDone := true }, log, .finished)
      | d :: rest => (p, log, .loading d rest)
  | .loading d rest =>
    let pl :=
      match load d with
      | some art =>
          ({ p with
             pipelines := p.pipelines ++ [(d, art)]
             available := p.available ++ [d] }, log ++ [d])
      | none => (p, log)
    match rest with
    | [] => ({ pl.1 with initDone := true }, pl.2, .finished)
    | d' :: rest' => (pl.1, pl.2, .loading d' rest')
  | .finished => (p, log, .finished)

/-- Run one scheduler step: task `i` executes its next atomic segment. -/
def initStep (load : String → Option Nat) (devices : List String)
    (m : InitMachine) (i : Nat) : InitMachine :=
  match m.tasks.get? i with
  | none => m
  | some pc =>
    let r := initSegment load devices m.pool m.loadLog pc
    { pool := r.1, loadLog := r.2.1, tasks := m.tasks.set i r.2.2 }

/-- Run a whole schedule (a list of task indices, executed left to right). -/
def runInitSched (load : String → Option Nat) (devices : List String)
    (sched : List Nat) (m : InitMachine) : InitMachine :=
  sched.foldl (initStep load devices) m

/-- Machine with `n` callers all about to enter initialization of a fresh
pool for the given devices. -/
def initMachineStart (devices : List String) (n : Nat) : InitMachine :=
  { pool := mkPool devices, loadLog := [], tasks := List.replicate n .entry }

/-!
Text handling of `ImageGenerator` (`generator.py` lines 601-696):
the Russian-script detection, the translation fallback and the prompt
templates (the template strings and descriptors are the construction-time
configuration defaults of `DiffusionPromptsConfig`, `config.py` lines 37-43).
-/

/-- Character class of the regex in `ImageGenerator.has_russian`
(`generator.py` line 637): `[а-яА-ЯёЁ]`, i.e. U+0430..U+044F, U+0410..U+042F,
U+0451 and U+0401. -/
def isRussianChar (c : Char) : Bool :=
  (0x430 ≤ c.toNat && c.toNat ≤ 0x44F) ||
  (0x410 ≤ c.toNat && c.toNat ≤ 0x42F) ||
  c.toNat == 0x451 || c.toNat == 0x401

/-- The detection `re.search(r"[а-яА-ЯёЁ]", text)` of
`ImageGenerator.has_russian`: does any character of the text fall in the
regex's character class. -/
def hasRussian (text : String) : Bool :=
  text.data.any isRussianChar

/-- Modelled from the spec: the claim speaks of "any character in the
Cyrillic range"; the Cyrillic Unicode block is U+0400..U+04FF.  This
predicate follows those words, to be compared against `hasRussian`, which is
what the source actually checks. -/
def hasCyrillicRange (text : String) : Bool :=
  text.data.any (fun c => 0x400 ≤ c.toNat && c.toNat ≤ 0x4FF)

/-- Outcome of the leased translation work inside
`ImageGenerator.translate_text` (`generator.py` lines 639-668): `raised` is
any exception escaping the `async with` block (including the `RuntimeError`
of a missing translator model); `ok r` is the string produced by
`_translate_sync` run in the executor (`_translate_sync` itself returns the
input text when the model call raises, lines 670-696). -/
inductive TransOutcome where
  | raised : TransOutcome
  | ok : String → TransOutcome
deriving Repr, DecidableEq

/-- The fallback logic of `translate_text`: on an exception return the
original text; otherwise `return result if result else text`, so an empty
(falsy) translation also falls back to the original text. -/
def translateText (o : TransOutcome) (text : String) : String :=
  match o with
  | .raised => text
  | .ok r => if r = "" then text else r

/-- Default `base_picture` descriptor (`config.py` line 39). -/
def basePicture : String := "cartoon image, fun, joyful, happy"

/-- Default `style` descriptor (`config.py` line 40). -/
def styleDescriptor : String := "digital art, professional, masterpiece, best quality"

/-- Default `subject` descriptor (`config.py` line 41). -/
def subjectDescriptor : String := "young girl named Evelina, dark long hair, big eyes"

/-- Rendering of `template_with_style` (`config.py` line 42) under
`str.format`: the literal template
`"<picture>{picture}</picture>, <style>{style}</style>, <subject>{subject}</subject>, <content>{content}</content>"`
with the four fields substituted. -/
def templateWithStyleRender (picture styl subject content : String) : String :=
  "<picture>" ++ picture ++ "</picture>, <style>" ++ styl ++
  "</style>, <subject>" ++ subject ++ "</subject>, <content>" ++ content ++ "</content>"

/-- Rendering of `template_no_style` (`config.py` line 43) under
`str.format`. -/
def templateNoStyleRender (picture subject content : String) : String :=
  "<picture>" ++ picture ++ "</picture>, <subject>" ++ subject ++
  "</subject>, <content>" ++ content ++ "</content>"

/-- The test `"style".lower() in content.lower()` of
`_create_birthday_prompt` (`generator.py` line 620).  Case folding is
modelled with `Char.toLower` (ASCII letters only); this decides the same
predicate as Python's `str.lower` here, because no non-ASCII character
lowercases to any of the ASCII letters `s`, `t`, `y`, `l`, `e`. -/
def containsStyleCI (content : String) : Bool :=
  decide ("style".data <:+: content.data.map Char.toLower)

/-- Template selection and filling of `_create_birthday_prompt`
(`generator.py` lines 619-632), at the configuration defaults: if the
content mentions "style" (case-insensitively), use the no-style template,
otherwise the with-style template. -/
def createPromptFromContent (content : String) : String :=
  if containsStyleCI content then
    templateNoStyleRender basePicture subjectDescriptor content
  else
    templateWithStyleRender basePicture styleDescriptor subjectDescriptor content

/-- Whole `_create_birthday_prompt` (`generator.py` lines 601-634): choose
the content — the translation of the text when `has_russian` fires, the text
itself otherwise — then fill the template; returns `(prompt, content)` as the
source does. -/
def createBirthdayPrompt (o : TransOutcome) (text : String) : String × String :=
  let content := if hasRussian text then translateText o text else text
  (createPromptFromContent content, content)

/-- Number of translation-device acquisitions performed for a given input
text: `_create_birthday_prompt` calls `translate_text` (which enters
`translator_pool.acquire_translator()`) exactly when `has_russian(text)`
holds (`generator.py` lines 614-617). -/
def translatorAcquisitions (text : String) : Nat :=
  if hasRussian text then 1 else 0

/-!
Generation pipeline of `ImageGenerator.generate_birthday_image`
(`generator.py` lines 437-496) over abstracted effects: generated images are
`Nat`s, an entry `none` in the image list is a falsy image skipped by the
`if image:` guard, and per-image save success is a predicate on the
enumeration index and the image (a `False` value standing for the caught
`image.save` exception).
-/

/-- The inner `_generate_with_gpu_pool` (`generator.py` lines 498-565):
build the prompt and content, run the pipeline on a leased device, and —
when the run produces a result with a non-empty `images` list — return
`(images, content)`; otherwise (pipeline failure, no images, or any
exception in the block, all caught at line 563) return `None`. -/
def generateWithGpuPool (o : TransOutcome) (text : String)
    (pipelineImages : Option (List (Option Nat))) :
    Option (List (Option Nat) × String) :=
  let pc := createBirthdayPrompt o text
  match pipelineImages with
  | none => none
  | some imgs => if imgs.isEmpty then none else some (imgs, pc.2)

/-- Paths of the images written by the save loop (`generator.py` lines
466-477): images are enumerated from 0; a truthy image whose save succeeds
contributes `birthday_card_{i+1}.png` inside the output directory; a falsy
image is skipped and a save error is caught and logged, contributing
nothing. -/
def savedPaths (dir : String) (images : List (Option Nat))
    (saveOk : Nat → Nat → Bool) : List String :=
  images.enum.filterMap fun pr =>
    match pr.2 with
    | some img =>
        if saveOk pr.1 img then
          some (dir ++ "/birthday_card_" ++ toString (pr.1 + 1) ++ ".png")
        else none
    | none => none

/-- Result of `generate_birthday_image`: the value returned to the handler
(`some (directory, content)` from line 482, or `none` from lines 486, 490,
496) together with whether `_cleanup_directory` removed the per-request
output directory. -/
structure GenReturn where
  result : Option (String × String)
  dirRemoved : Bool
deriving Repr, DecidableEq

/-- Outer `generate_birthday_image` (`generator.py` lines 437-496), after
the output directory `dir` has been created: if the inner generation gives
no image list (`None` is unpacked at line 462, raising into the outer
`except`, which removes the directory) or an empty one, remove the directory
and return `None`; otherwise save each image, and if at least one path was
saved return `(dir, content)` leaving the directory in place, else remove
the directory and return `None`. -/
def generateBirthdayImage (dir : String)
    (genOutcome : Option (List (Option Nat) × String))
    (saveOk : Nat → Nat → Bool) : GenReturn :=
  match genOutcome with
  | none => { result := none, dirRemoved := true }
  | some (images, content) =>
    if images.isEmpty then { result := none, dirRemoved := true }
    else
      let sp := savedPaths dir images saveOk
      if sp.isEmpty then { result := none, dirRemoved := true }
      else { result := some (dir, content), dirRemoved := false }

/-- The admission step of `handle_generation_request` followed (when
admitted) by the generation path's device acquisition (`handlers.py` lines
300-321 into `acquire_gpu`): the boolean records whether the request was
admitted past the queue check and proceeded to acquire. -/
def handleRequest (load : String → Option Nat)
    (reclaim : String → Except String Unit) (maxq : Nat)
    (s : SysState) : Bool × SysState :=
  if admissionRejects maxq s.pool then (false, s)
  else (true, applySysOp load reclaim s .opAcq)

/-!
Lemmas about initialization.
-/

/-- The per-device loading loop of `initialize`, in closed form: it appends
one binding per successful load to the models dict and one id per successful
load to the available FIFO, touching nothing else. -/
theorem initFold_eq (load : String → Option Nat) (ds : List String) (st : Pool) :
    ds.foldl
      (fun st d =>
        match load d with
        | some art =>
            { st with
              pipelines := st.pipelines ++ [(d, art)]
              available := st.available ++ [d] }
        | none => st)
      st
    = { st with
        pipelines := st.pipelines ++ pipelinesOf load ds
        available := st.available ++ loadedIds load ds } := by
  induction ds generalizing st with
  | nil => simp [pipelinesOf, loadedIds]
  | cons d ds ih =>
    cases h : load d <;>
      simp [List.foldl_cons, ih, pipelinesOf, loadedIds, List.filterMap_cons,
        List.filter_cons, h, List.append_assoc]

/-- Closed form of `initialize` on an uninitialized pool. -/
theorem initModels_eq (load : String → Option Nat) (p : Pool)
    (h : p.initDone = false) :
    initModels load p
      = { p with
          pipelines := p.pipelines ++ pipelinesOf load p.gpu_devices
          available := p.available ++ loadedIds load p.gpu_devices
          initDone := true } := by
  simp [initModels, h, initFold_eq]

/-- Closed form of `initialize` on a freshly constructed pool. -/
theorem initModels_mkPool (load : String → Option Nat) (devices : List String) :
    initModels load (mkPool devices)
      = { gpu_devices := devices
          pipelines := pipelinesOf load devices
          available := loadedIds load devices
          genQueueSize := 0
          initDone := true } := by
  rw [initModels_eq load (mkPool devices) rfl]
  simp [mkPool]

/-- On an already-initialized pool, `initialize` returns immediately. -/
theorem initModels_id_of_done (load : String → Option Nat) (p : Pool)
    (h : p.initDone = true) : initModels load p = p := by
  simp [initModels, h]

/-- Lookup of the key at the head of an assoc list. -/
theorem lookup_cons_self {β : Type} (k : String) (v : β) (l : List (String × β)) :
    List.lookup k ((k, v) :: l) = some v := by simp [List.lookup]

/-- Lookup skips a head entry with a different key. -/
theorem lookup_cons_ne {β : Type} (k e : String) (v : β) (l : List (String × β))
    (h : k ≠ e) : List.lookup k ((e, v) :: l) = List.lookup k l := by
  have hb : (k == e) = false := beq_eq_false_iff_ne.mpr h
  simp [List.lookup, hb]

/-- Unfolding of the models dict over the first configured device. -/
theorem pipelinesOf_cons (load : String → Option Nat) (e : String) (ds : List String) :
    pipelinesOf load (e :: ds)
      = (match load e with
         | some a => (e, a) :: pipelinesOf load ds
         | none => pipelinesOf load ds) := by
  cases he : load e <;> simp [pipelinesOf, List.filterMap_cons, he]

/-- Unfolding of the loaded-id list over the first configured device. -/
theorem loadedIds_cons (load : String → Option Nat) (e : String) (ds : List String) :
    loadedIds load (e :: ds)
      = (if (load e).isSome then e :: loadedIds load ds else loadedIds load ds) := by
  by_cases he : (load e).isSome <;> simp [loadedIds, List.filter_cons, he]

/-- A device whose load failed has no binding in the models dict. -/
theorem lookup_pipelinesOf_eq_none (load : String → Option Nat) (d : String)
    (h : load d = none) (ds : List String) :
    (pipelinesOf load ds).lookup d = none := by
  induction ds with
  | nil => simp [pipelinesOf]
  | cons e ds ih =>
    rw [pipelinesOf_cons]
    cases he : load e with
    | none => exact ih
    | some a =>
      have hne : d ≠ e := by
        intro hde
        rw [hde, he] at h
        exact Option.noConfusion h
      rw [lookup_cons_ne d e a _ hne]
      exact ih

/-- Every successfully loaded device has a binding in the models dict. -/
theorem lookup_pipelinesOf_isSome (load : String → Option Nat) (d : String)
    (ds : List String) (h : d ∈ loadedIds load ds) :
    ∃ art, (pipelinesOf load ds).lookup d = some art := by
  induction ds with
  | nil => simp [loadedIds] at h
  | cons e ds ih =>
    rw [pipelinesOf_cons]
    rw [loadedIds_cons] at h
    cases he : load e with
    | none =>
      rw [he] at h
      simp only [Option.isSome_none, Bool.false_eq_true, if_false] at h
      exact ih h
    | some a =>
      by_cases hde : d = e
      · subst hde
        exact ⟨a, lookup_cons_self d a _⟩
      · rw [he] at h
        simp only [Option.isSome_some, if_true, List.mem_cons] at h
        rcases h with h | h
        · exact absurd h hde
        · have ⟨art, hart⟩ := ih h
          exact ⟨art, by rw [lookup_cons_ne d e a _ hde, hart]⟩

/-- C5.  Failed-load exclusion: after `initialize()` on a fresh pool, the
pool is marked initialized (whatever the loads did — including all of them
failing), the available FIFO holds exactly the successfully loaded devices
in configuration order (so loading continued past any failure), a device
whose load failed is neither in the FIFO nor in the models dict, and every
id in the FIFO has a loaded artifact. -/
theorem failed_load_exclusion :
    ∀ (devices : List String) (load : String → Option Nat),
      (initModels load (mkPool devices)).initDone = true
      ∧ (initModels load (mkPool devices)).available = loadedIds load devices
      ∧ (∀ d, load d = none →
          d ∉ (initModels load (mkPool devices)).available
          ∧ (initModels load (mkPool devices)).pipelines.lookup d = none)
      ∧ (∀ d, d ∈ (initModels load (mkPool devices)).available →
          ∃ art, (initModels load (mkPool devices)).pipelines.lookup d = some art) := by
  intro devices load
  refine ⟨by simp [initModels_mkPool], by simp [initModels_mkPool], ?_, ?_⟩
  · intro d hd
    constructor
    · simp only [initModels_mkPool]
      intro hmem
      rw [loadedIds, List.mem_filter] at hmem
      rw [hd] at hmem
      simp at hmem
    · simp only [initModels_mkPool]
      exact lookup_pipelinesOf_eq_none load d hd devices
  · intro d hmem
    simp only [initModels_mkPool] at hmem ⊢
    exact lookup_pipelinesOf_isSome load d devices hmem

/-- Witness for C5 on a two-device pool whose first device fails to load:
the failed device is excluded from the FIFO and the dict, while the second
device is loaded and usable. -/
theorem failed_load_exclusion_witness :
    ("cuda:0" ∉ (initModels (fun d => if d = "cuda:0" then none else some 7)
        (mkPool ["cuda:0", "cuda:1"])).available
      ∧ (initModels (fun d => if d = "cuda:0" then none else some 7)
        (mkPool ["cuda:0", "cuda:1"])).pipelines.lookup "cuda:0" = none)
    ∧ ∃ art, (initModels (fun d => if d = "cuda:0" then none else some 7)
        (mkPool ["cuda:0", "cuda:1"])).pipelines.lookup "cuda:1" = some art :=
  ⟨(failed_load_exclusion ["cuda:0", "cuda:1"] _).2.2.1 "cuda:0" (by decide),
   (failed_load_exclusion ["cuda:0", "cuda:1"] _).2.2.2 "cuda:1" (by decide)⟩

/-- C3 counterexample.  Under the cooperative-interleaving semantics of
`WhisperPool.initialize` / `TranslatorPool.initialize` (each per-device load
is awaited through `run_in_executor`, a suspension point between the
`_initialized` check and the final `_initialized = True`), two callers that
both reach the check before either finishes loading each run the full
loading loop: with one device and the schedule A, B, A, B the device is
loaded twice and enqueued into the available FIFO twice — refuting the
claim that no device id is ever loaded or enqueued twice regardless of
concurrent callers. -/
theorem init_double_enqueue_cex :
    (runInitSched (fun _ => some 0) ["cpu"] [0, 1, 0, 1]
        (initMachineStart ["cpu"] 2)).pool.available = ["cpu", "cpu"]
    ∧ (runInitSched (fun _ => some 0) ["cpu"] [0, 1, 0, 1]
        (initMachineStart ["cpu"] 2)).pool.available.count "cpu" = 2
    ∧ (runInitSched (fun _ => some 0) ["cpu"] [0, 1, 0, 1]
        (initMachineStart ["cpu"] 2)).loadLog.length = 2 := by
  decide

/-- C3 amended.  Initialization marks the pool initialized, and it is
exactly-once for non-overlapping callers: re-running `initialize()` after a
completed run changes nothing, and any caller that arrives after completion
observes the initialized state and does not re-trigger loading.  (Callers
overlapping an in-progress initialization can re-trigger it — see the
counterexample.) -/
theorem init_exactly_once_amended :
    ∀ (load : String → Option Nat) (p : Pool),
      (initModels load p).initDone = true
      ∧ initModels load (initModels load p) = initModels load p
      ∧ (p.initDone = true → initModels load p = p) := by
  intro load p
  have h1 : (initModels load p).initDone = true := by
    cases h : p.initDone <;> simp [initModels, h]
  exact ⟨h1, initModels_id_of_done load _ h1,
    fun h => initModels_id_of_done load p h⟩

/-- Witness for the amended C3: on an already-initialized pool,
`initialize()` is a no-op. -/
theorem init_exactly_once_amended_witness :
    initModels (fun _ => some 0) { mkPool ["cpu"] with initDone := true }
      = { mkPool ["cpu"] with initDone := true } :=
  (init_exactly_once_amended (fun _ => some 0) _).2.2 rfl

/-- After a scoped lease on device `d` (front of the FIFO, artifact
present), whatever the body did, the pool's FIFO is the old tail with `d`
re-appended at the back. -/
theorem acquireGpuScoped_pool {α : Type} (reclaim : String → Except String Unit)
    (body : String → Nat → Except String α) (p : Pool) (d : String)
    (rest : List String) (art : Nat)
    (hav : p.available = d :: rest) (hart : p.pipelines.lookup d = some art) :
    (acquireGpuScoped reclaim body p).2 = { p with available := rest ++ [d] } := by
  simp only [acquireGpuScoped, acquireGpu, hav, hart, releaseGpu, cleanupDeviceMemory]
  cases body d art <;> rfl

/-- On a one-device pool, a whole scoped lease returns the pool to its
starting state. -/
theorem acquireGpuScoped_one_device {α : Type} (reclaim : String → Except String Unit)
    (body : String → Nat → Except String α) (p : Pool) (d : String) (art : Nat)
    (hav : p.available = [d]) (hart : p.pipelines.lookup d = some art) :
    (acquireGpuScoped reclaim body p).2 = p := by
  rw [acquireGpuScoped_pool reclaim body p d [] art hav hart, List.nil_append, ← hav]

/-- C2.  Lease release on every exit path: (1) whenever a lease is granted,
the device id is back at the rear of the available FIFO after the scope
exits, whether the leased body returned normally or raised; (2) after any
number of acquire-then-release cycles (in particular cycles whose body
raises) on a pool with one usable device, the available FIFO still holds
exactly that device; (3) the outcome is entirely independent of the memory
reclamation callback, so reclamation failures never propagate. -/
theorem lease_release_every_exit :
    (∀ (α : Type) (reclaim : String → Except String Unit)
       (body : String → Nat → Except String α) (p : Pool) (d : String)
       (rest : List String) (art : Nat),
       p.available = d :: rest → p.pipelines.lookup d = some art →
       ((acquireGpuScoped reclaim body p).2).available = rest ++ [d])
    ∧ (∀ (α : Type) (reclaim : String → Except String Unit)
       (body : String → Nat → Except String α) (p : Pool) (d : String)
       (art : Nat) (n : Nat),
       p.available = [d] → p.pipelines.lookup d = some art →
       (cyclesScoped reclaim body n p).available = [d])
    ∧ (∀ (α : Type) (r1 r2 : String → Except String Unit)
       (body : String → Nat → Except String α) (p : Pool),
       acquireGpuScoped r1 body p = acquireGpuScoped r2 body p) := by
  refine ⟨?_, ?_, ?_⟩
  · intro α reclaim body p d rest art hav hart
    rw [acquireGpuScoped_pool reclaim body p d rest art hav hart]
  · intro α reclaim body p d art n hav hart
    induction n with
    | zero => simpa [cyclesScoped] using hav
    | succ n ih =>
      simp only [cyclesScoped]
      rw [acquireGpuScoped_one_device reclaim body p d art hav hart]
      exact ih
  · intro α r1 r2 body p
    rfl

/-- Witness for C2: three acquire-and-raise cycles on a one-device pool,
with a reclamation callback that itself fails, leave the device available. -/
theorem lease_release_every_exit_witness :
    (cyclesScoped (fun _ => Except.error "cleanup fail")
      (fun _ _ => (Except.error "inference fail" : Except String Unit)) 3
      { gpu_devices := ["cuda:0"], pipelines := [("cuda:0", 5)],
        available := ["cuda:0"], genQueueSize := 0, initDone := true }).available
    = ["cuda:0"] :=
  lease_release_every_exit.2.1 Unit (fun _ => Except.error "cleanup fail")
    (fun _ _ => Except.error "inference fail") _ "cuda:0" 5 3 rfl (by decide)

/-- The conservation invariant is preserved by every pool operation. -/
theorem applySysOp_inv (load : String → Option Nat)
    (reclaim : String → Except String Unit) (devices : List String)
    (s : SysState) (op : SysOp) (h : poolInv load devices s) :
    poolInv load devices (applySysOp load reclaim s op) := by
  obtain ⟨hperm, hdone, hdev⟩ := h
  cases op with
  | opInit =>
    simpa [applySysOp, initModels_id_of_done load _ hdone] using
      (⟨hperm, hdone, hdev⟩ : poolInv load devices s)
  | opAcq =>
    rcases hav : s.pool.available with _ | ⟨d, rest⟩
    · simp only [applySysOp, acquireGpu, hav]
      exact ⟨by simpa [hav] using hperm, hdone, hdev⟩
    · rw [hav] at hperm
      cases hlk : s.pool.pipelines.lookup d with
      | none =>
        simp only [applySysOp, acquireGpu, hav, hlk]
        refine ⟨?_, hdone, hdev⟩
        exact ((List.perm_append_singleton d rest).append_right s.leased).trans hperm
      | some art =>
        simp only [applySysOp, acquireGpu, hav, hlk]
        refine ⟨?_, hdone, hdev⟩
        have h1 : (rest ++ (s.leased ++ [d])).Perm ((d :: rest) ++ s.leased) := by
          rw [← List.append_assoc]
          exact List.perm_append_singleton d (rest ++ s.leased)
        exact h1.trans hperm
  | opRel d =>
    by_cases hd : d ∈ s.leased
    · simp only [applySysOp, hd, if_true, releaseGpu]
      refine ⟨?_, hdone, hdev⟩
      have h2 : (s.pool.available ++ [d] ++ s.leased.erase d).Perm
          (s.pool.available ++ s.leased) := by
        rw [List.append_assoc]
        exact ((List.perm_cons_erase hd).symm).append_left s.pool.available
      exact h2.trans hperm
    · simp only [applySysOp, hd, if_false]
      exact ⟨hperm, hdone, hdev⟩

/-- The conservation invariant is preserved by every operation sequence. -/
theorem applySysOps_inv (load : String → Option Nat)
    (reclaim : String → Except String Unit) (devices : List String)
    (ops : List SysOp) :
    ∀ s, poolInv load devices s →
      poolInv load devices (applySysOps load reclaim ops s) := by
  induction ops with
  | nil => intro s h; exact h
  | cons op ops ih =>
    intro s h
    have h1 := applySysOp_inv load reclaim devices s op h
    simpa [applySysOps, List.foldl_cons] using
      ih (applySysOp load reclaim s op) h1

/-- The invariant holds right after initialization of a fresh pool. -/
theorem poolInv_start (load : String → Option Nat) (devices : List String) :
    poolInv load devices ⟨initModels load (mkPool devices), [], 0⟩ := by
  refine ⟨?_, by simp [initModels_mkPool], by simp [initModels_mkPool]⟩
  simp [initModels_mkPool]

/-- C4.  Lease capacity invariant: for any operation sequence after
initialization of a fresh pool with distinct device ids, the available FIFO
plus the outstanding leases is a permutation of the loaded ids (no id lost
or duplicated), no device id is held by two leases at once, at most
`len(device_ids)` leases are outstanding, `available + busy = total` as
reported by `get_status`, and once every loaded device is leased a further
acquirer blocks (suspends) until a release. -/
theorem pool_capacity_invariant :
    ∀ (devices : List String) (load : String → Option Nat)
      (reclaim : String → Except String Unit) (ops : List SysOp) (maxq : Nat)
      (s : SysState),
      devices.Nodup →
      s = applySysOps load reclaim ops ⟨initModels load (mkPool devices), [], 0⟩ →
      (s.pool.available ++ s.leased).Perm (loadedIds load devices)
      ∧ s.leased.Nodup
      ∧ s.leased.length ≤ devices.length
      ∧ s.pool.available.length + s.leased.length = (loadedIds load devices).length
      ∧ (getStatus maxq s.pool).available_gpus + (getStatus maxq s.pool).busy_gpus
          = (getStatus maxq s.pool).total_gpus
      ∧ (s.leased.length = (loadedIds load devices).length →
          acquireGpu s.pool = AcquireResult.blocked) := by
  intro devices load reclaim ops maxq s hnd hs
  have hinv := applySysOps_inv load reclaim devices ops _ (poolInv_start load devices)
  rw [← hs] at hinv
  obtain ⟨hperm, hdone, hdev⟩ := hinv
  have hnodLoaded : (loadedIds load devices).Nodup := hnd.filter _
  have hnodAll : (s.pool.available ++ s.leased).Nodup := hperm.symm.nodup hnodLoaded
  have hlen : s.pool.available.length + s.leased.length = (loadedIds load devices).length := by
    have hl := hperm.length_eq
    simpa [List.length_append] using hl
  have hleq : (loadedIds load devices).length ≤ devices.length :=
    List.length_filter_le _ _
  refine ⟨hperm, hnodAll.of_append_right, by omega, hlen, ?_, ?_⟩
  · simp only [getStatus]
    have hav_le : s.pool.available.length ≤ s.pool.gpu_devices.length := by
      rw [hdev]; omega
    exact Nat.add_sub_cancel' hav_le
  · intro hfull
    have hav0 : s.pool.available.length = 0 := by omega
    have hnil : s.pool.available = [] := List.length_eq_zero.mp hav0
    simp [acquireGpu, hnil]

/-- Witness for C4: a two-device pool, both loaded and both leased — the
leased ids are distinct and a third concurrent acquirer blocks. -/
theorem pool_capacity_invariant_witness :
    (applySysOps (fun _ => some 3) (fun _ => Except.ok ())
        [SysOp.opInit, SysOp.opAcq, SysOp.opAcq]
        ⟨initModels (fun _ => some 3) (mkPool ["cuda:0", "cuda:1"]), [], 0⟩).leased.Nodup
    ∧ acquireGpu (applySysOps (fun _ => some 3) (fun _ => Except.ok ())
        [SysOp.opInit, SysOp.opAcq, SysOp.opAcq]
        ⟨initModels (fun _ => some 3) (mkPool ["cuda:0", "cuda:1"]), [], 0⟩).pool
      = AcquireResult.blocked :=
  ⟨(pool_capacity_invariant ["cuda:0", "cuda:1"] _ _ _ 10 _ (by decide) rfl).2.1,
   (pool_capacity_invariant ["cuda:0", "cuda:1"] _ _ _ 10 _ (by decide) rfl).2.2.2.2.2
     (by decide)⟩

/-- The `generation_queue` size is untouched by `initialize`. -/
theorem initModels_genQueue (load : String → Option Nat) (p : Pool) :
    (initModels load p).genQueueSize = p.genQueueSize := by
  cases h : p.initDone
  · rw [initModels_eq load p h]
  · rw [initModels_id_of_done load p h]

/-- The `generation_queue` size is untouched by every pool operation: no
code path of the repository ever puts an element into it. -/
theorem applySysOp_genQueue (load : String → Option Nat)
    (reclaim : String → Except String Unit) (s : SysState) (op : SysOp) :
    (applySysOp load reclaim s op).pool.genQueueSize = s.pool.genQueueSize := by
  cases op with
  | opInit => simp [applySysOp, initModels_genQueue]
  | opAcq =>
    rcases hav : s.pool.available with _ | ⟨d, rest⟩
    · simp [applySysOp, acquireGpu, hav]
    · cases hlk : s.pool.pipelines.lookup d <;>
        simp [applySysOp, acquireGpu, hav, hlk]
  | opRel d =>
    by_cases hd : d ∈ s.leased <;> simp [applySysOp, hd, releaseGpu]

/-- The `generation_queue` size is untouched by every operation sequence. -/
theorem applySysOps_genQueue (load : String → Option Nat)
    (reclaim : String → Except String Unit) (ops : List SysOp) :
    ∀ s, (applySysOps load reclaim ops s).pool.genQueueSize = s.pool.genQueueSize := by
  induction ops with
  | nil => intro s; rfl
  | cons op ops ih =>
    intro s
    have h1 := applySysOp_genQueue load reclaim s op
    have h2 := ih (applySysOp load reclaim s op)
    simp only [applySysOps, List.foldl_cons] at h2 ⊢
    exact h2.trans h1

/-- C1.  The admission check compares `gpu_status["queue_size"]` — the size
of `generation_queue` — against `max_queue_size`, but no code path of the
repository ever enqueues into `generation_queue`: in every reachable pool
state its size is 0, so the check rejects only in the degenerate
configuration `max_queue_size = 0` (part 1).  In particular (part 2), on a
one-device pool whose device is leased and with one request already
suspended waiting for a device — a backlog of 1, equal to
`max_queue_size = 1` — a newly arriving request is still admitted and
proceeds to `acquire()` instead of being rejected with the
"all devices busy" signal the claim requires. -/
theorem admission_check_dead_queue :
    (∀ (devices : List String) (load : String → Option Nat)
       (reclaim : String → Except String Unit) (ops : List SysOp) (maxq : Nat),
       admissionRejects maxq
           (applySysOps load reclaim ops ⟨mkPool devices, [], 0⟩).pool
         = decide (maxq = 0))
    ∧ ((applySysOps (fun _ => some 0) (fun _ => Except.ok ())
          [SysOp.opInit, SysOp.opAcq, SysOp.opAcq]
          ⟨mkPool ["cuda:0"], [], 0⟩).waiting = 1
       ∧ (handleRequest (fun _ => some 0) (fun _ => Except.ok ()) 1
            (applySysOps (fun _ => some 0) (fun _ => Except.ok ())
              [SysOp.opInit, SysOp.opAcq, SysOp.opAcq]
              ⟨mkPool ["cuda:0"], [], 0⟩)).1 = true) := by
  constructor
  · intro devices load reclaim ops maxq
    have hq : (applySysOps load reclaim ops ⟨mkPool devices, [], 0⟩).pool.genQueueSize = 0 :=
      applySysOps_genQueue load reclaim ops _
    simp [admissionRejects, getStatus, hq, ge_iff_le, Nat.le_zero]
  · exact ⟨by decide, by decide⟩

/-- A request whose generation produced no image list: the directory is
removed and `None` is returned. -/
theorem generateBirthdayImage_none (dir : String) (saveOk : Nat → Nat → Bool) :
    generateBirthdayImage dir none saveOk = { result := none, dirRemoved := true } :=
  rfl

/-- A request with at least one saved image succeeds with the directory and
content, and the directory is kept. -/
theorem generateBirthdayImage_saved (dir : String) (images : List (Option Nat))
    (content : String) (saveOk : Nat → Nat → Bool)
    (h : savedPaths dir images saveOk ≠ []) :
    generateBirthdayImage dir (some (images, content)) saveOk
      = { result := some (dir, content), dirRemoved := false } := by
  have himg : images.isEmpty = false := by
    cases images with
    | nil => exact absurd rfl h
    | cons a l => rfl
  have hsp : (savedPaths dir images saveOk).isEmpty = false := by
    cases hs : savedPaths dir images saveOk with
    | nil => exact absurd hs h
    | cons a l => rfl
  simp [generateBirthdayImage, himg, hsp]

/-- A request with zero saved images is a full failure: the directory is
removed and `None` is returned. -/
theorem generateBirthdayImage_unsaved (dir : String) (images : List (Option Nat))
    (content : String) (saveOk : Nat → Nat → Bool)
    (h : savedPaths dir images saveOk = []) :
    generateBirthdayImage dir (some (images, content)) saveOk
      = { result := none, dirRemoved := true } := by
  cases himg : images.isEmpty
  · simp [generateBirthdayImage, himg, h]
  · simp [generateBirthdayImage, himg]

/-- C6.  Translation fallback: whenever the translation step fails (the
leased translation raised, or produced an empty result), `translate_text`
returns the original input text, the content chosen by
`_create_birthday_prompt` is the original text, and a successful generation
hands back `used_content` equal to the original input text. -/
theorem translation_fallback :
    ∀ (text : String) (o : TransOutcome),
      (o = TransOutcome.raised ∨ o = TransOutcome.ok "") →
      translateText o text = text
      ∧ (createBirthdayPrompt o text).2 = text
      ∧ ∀ (dir : String) (images : List (Option Nat)) (saveOk : Nat → Nat → Bool),
          savedPaths dir images saveOk ≠ [] →
          (generateBirthdayImage dir (generateWithGpuPool o text (some images)) saveOk).result
            = some (dir, text) := by
  intro text o ho
  have ht : translateText o text = text := by
    rcases ho with h | h <;> subst h <;> simp [translateText]
  have hc : (createBirthdayPrompt o text).2 = text := by
    by_cases hr : hasRussian text <;> simp [createBirthdayPrompt, hr, ht]
  refine ⟨ht, hc, ?_⟩
  intro dir images saveOk hsp
  have himg : images.isEmpty = false := by
    cases images with
    | nil => exact absurd rfl hsp
    | cons a l => rfl
  have hgen : generateWithGpuPool o text (some images)
      = some (images, (createBirthdayPrompt o text).2) := by
    simp [generateWithGpuPool, himg]
  rw [hgen, hc, generateBirthdayImage_saved dir images text saveOk hsp]

/-- Witness for C6: a Russian input whose translation raises still yields
the original text as used content alongside the output directory. -/
theorem translation_fallback_witness :
    hasRussian "Привет" = true
    ∧ (generateBirthdayImage "out" (generateWithGpuPool TransOutcome.raised "Привет"
          (some [some 0])) (fun _ _ => true)).result = some ("out", "Привет") :=
  ⟨by decide,
   (translation_fallback "Привет" TransOutcome.raised (Or.inl rfl)).2.2
     "out" [some 0] (fun _ _ => true) (by decide)⟩

/-- C7 counterexample.  The character U+0450 (ѐ) lies in the Cyrillic
Unicode range (U+0400..U+04FF), yet `has_russian` does not match it — its
regex covers only а-я, А-Я, ё, Ё — so an input consisting of that character
passes through untranslated and acquires no translation device, refuting
the claim that translation is invoked for every text containing a
Cyrillic-range character. -/
theorem translation_trigger_cex :
    hasCyrillicRange "ѐ" = true
    ∧ hasRussian "ѐ" = false
    ∧ translatorAcquisitions "ѐ" = 0
    ∧ (createBirthdayPrompt TransOutcome.raised "ѐ").2 = "ѐ" := by
  refine ⟨by decide, by decide, by decide, ?_⟩
  have h : hasRussian "ѐ" = false := by decide
  simp [createBirthdayPrompt, h]

/-- C7 amended.  The translation step is invoked if and only if the text
contains a character matched by the source's regex `[а-яА-ЯёЁ]` (the
Russian alphabet subset of Cyrillic, not the whole Cyrillic range); a text
with no such character is passed through unchanged without acquiring a
translation device. -/
theorem translation_trigger_amended :
    ∀ (text : String),
      (hasRussian text = true ↔ ∃ c, c ∈ text.data ∧ isRussianChar c = true)
      ∧ (hasRussian text = false →
          translatorAcquisitions text = 0
          ∧ ∀ o, (createBirthdayPrompt o text).2 = text) := by
  intro text
  constructor
  · simp [hasRussian, List.any_eq_true]
  · intro h
    refine ⟨by simp [translatorAcquisitions, h], ?_⟩
    intro o
    simp [createBirthdayPrompt, h]

/-- Witness for the amended C7: an ASCII text acquires no translator and is
passed through; a Russian text is detected via its first letter. -/
theorem translation_trigger_amended_witness :
    (translatorAcquisitions "hello" = 0
      ∧ (createBirthdayPrompt TransOutcome.raised "hello").2 = "hello")
    ∧ hasRussian "Привет" = true :=
  ⟨⟨((translation_trigger_amended "hello").2 (by decide)).1,
    ((translation_trigger_amended "hello").2 (by decide)).2 TransOutcome.raised⟩,
   (translation_trigger_amended "Привет").1.mpr ⟨'П', by decide, by decide⟩⟩

/-- C8.  Prompt construction at the configured defaults: content mentioning
"style" case-insensitively selects the no-style template — picture, subject
and content segments in that order, and the result differs from the
with-style rendering — while any other content selects the with-style
template with the picture, style, subject and content segments in that
fixed order. -/
theorem prompt_construction :
    ∀ (content : String),
      (containsStyleCI content = true →
        createPromptFromContent content
          = "<picture>" ++ basePicture ++ "</picture>, <subject>" ++ subjectDescriptor
            ++ "</subject>, <content>" ++ content ++ "</content>"
        ∧ createPromptFromContent content
          ≠ templateWithStyleRender basePicture styleDescriptor subjectDescriptor content)
      ∧ (containsStyleCI content = false →
        createPromptFromContent content
          = "<picture>" ++ basePicture ++ "</picture>, <style>" ++ styleDescriptor
            ++ "</style>, <subject>" ++ subjectDescriptor ++ "</subject>, <content>"
            ++ content ++ "</content>") := by
  intro content
  constructor
  · intro h
    constructor
    · simp [createPromptFromContent, h, templateNoStyleRender]
    · intro heq
      simp only [createPromptFromContent, h, if_true] at heq
      have hl := congrArg String.length heq
      simp only [templateNoStyleRender, templateWithStyleRender,
        String.length_append] at hl
      have e1 : ("<picture>" : String).length = 9 := by decide
      have e2 : ("</picture>, <subject>" : String).length = 21 := by decide
      have e3 : ("</subject>, <content>" : String).length = 21 := by decide
      have e4 : ("</content>" : String).length = 10 := by decide
      have e5 : ("</picture>, <style>" : String).length = 19 := by decide
      have e6 : ("</style>, <subject>" : String).length = 19 := by decide
      have e7 : basePicture.length = 33 := by decide
      have e8 : styleDescriptor.length = 52 := by decide
      have e9 : subjectDescriptor.length = 50 := by decide
      omega
  · intro h
    simp [createPromptFromContent, h, templateWithStyleRender]

/-- Witness for C8: content containing "STYLE" gets the no-style prompt
(different from the with-style rendering); plain content gets the full
four-segment prompt. -/
theorem prompt_construction_witness :
    createPromptFromContent "BIRTHDAY STYLE"
      ≠ templateWithStyleRender basePicture styleDescriptor subjectDescriptor
          "BIRTHDAY STYLE"
    ∧ createPromptFromContent "birthday"
      = "<picture>" ++ basePicture ++ "</picture>, <style>" ++ styleDescriptor
        ++ "</style>, <subject>" ++ subjectDescriptor ++ "</subject>, <content>"
        ++ "birthday" ++ "</content>" :=
  ⟨((prompt_construction "BIRTHDAY STYLE").1 (by decide)).2,
   (prompt_construction "birthday").2 (by decide)⟩

/-- C9.  Artifact save semantics: a request with at least one saved image
succeeds, returning the output directory (and content) with the directory
kept; a request with zero saved images, an empty image list, or no inner
result at all (including an escaped exception) is a full failure whose
output directory is removed. -/
theorem artifact_save_semantics :
    ∀ (dir : String) (genOutcome : Option (List (Option Nat) × String))
      (saveOk : Nat → Nat → Bool),
      (∀ images content, genOutcome = some (images, content) →
        savedPaths dir images saveOk ≠ [] →
        generateBirthdayImage dir genOutcome saveOk
          = { result := some (dir, content), dirRemoved := false })
      ∧ (∀ images content, genOutcome = some (images, content) →
        savedPaths dir images saveOk = [] →
        generateBirthdayImage dir genOutcome saveOk
          = { result := none, dirRemoved := true })
      ∧ (genOutcome = none →
        generateBirthdayImage dir genOutcome saveOk
          = { result := none, dirRemoved := true }) := by
  intro dir genOutcome saveOk
  refine ⟨?_, ?_, ?_⟩
  · intro images content hg hs
    subst hg
    exact generateBirthdayImage_saved dir images content saveOk hs
  · intro images content hg hs
    subst hg
    exact generateBirthdayImage_unsaved dir images content saveOk hs
  · intro hg
    subst hg
    rfl

/-- Witness for C9: two images of which only the first saves — the request
still succeeds; one image whose save fails — full failure with the
directory removed. -/
theorem artifact_save_semantics_witness :
    generateBirthdayImage "out" (some ([some 1, some 2], "content"))
        (fun i _ => i == 0)
      = { result := some ("out", "content"), dirRemoved := false }
    ∧ generateBirthdayImage "out" (some ([some 1], "content")) (fun _ _ => false)
      = { result := none, dirRemoved := true } :=
  ⟨(artifact_save_semantics "out" _ _).1 _ _ rfl (by decide),
   (artifact_save_semantics "out" _ _).2.1 _ _ rfl (by decide)⟩

/-- C10 counterexample.  `generate_birthday_image` does not always return
a destructurable pair: on a failed generation it returns `None` (its
docstring says as much), which is not a pair — the handler's unconditional
`images_dir, content = await generator.generate_birthday_image(...)` then
raises into the generic error handler. -/
theorem generate_return_shape_cex :
    (generateBirthdayImage "out" none (fun _ _ => true)).result = none
    ∧ ∀ pr : String × String,
        (generateBirthdayImage "out" none (fun _ _ => true)).result ≠ some pr :=
  ⟨rfl, fun _ h => Option.noConfusion h⟩

/-- C10 amended.  `generate(text, user_id)` returns a destructurable pair
`(directory_path, used_content)` exactly when generation succeeded — when
the inner pipeline produced images and at least one of them saved; on every
failure path it returns `None` instead of a pair. -/
theorem generate_return_shape_amended :
    ∀ (dir : String) (genOutcome : Option (List (Option Nat) × String))
      (saveOk : Nat → Nat → Bool),
      ((generateBirthdayImage dir genOutcome saveOk).result.isSome = true ↔
        ∃ images content, genOutcome = some (images, content)
          ∧ savedPaths dir images saveOk ≠ [])
      ∧ (∀ images content, genOutcome = some (images, content) →
          savedPaths dir images saveOk ≠ [] →
          (generateBirthdayImage dir genOutcome saveOk).result = some (dir, content)) := by
  intro dir genOutcome saveOk
  constructor
  · cases genOutcome with
    | none => simp [generateBirthdayImage_none]
    | some pr =>
      obtain ⟨images, content⟩ := pr
      by_cases hs : savedPaths dir images saveOk = []
      · rw [generateBirthdayImage_unsaved dir images content saveOk hs]
        simp only [Option.isSome_none, Bool.false_eq_true, false_iff]
        rintro ⟨i, c, hic, hni⟩
        injection hic with h2
        cases h2
        exact hni hs
      · rw [generateBirthdayImage_saved dir images content saveOk hs]
        simp only [Option.isSome_some, true_iff]
        exact ⟨images, content, rfl, hs⟩
  · intro images content hg hs
    subst hg
    rw [generateBirthdayImage_saved dir images content saveOk hs]

/-- Witness for the amended C10: a successful generation returns the pair
of directory and used content. -/
theorem generate_return_shape_amended_witness :
    (generateBirthdayImage "out" (some ([some 5], "used")) (fun _ _ => true)).result
      = some ("out", "used") :=
  (generate_return_shape_amended "out" _ _).2 _ _ rfl (by decide)
